import Mathlib

/-!
Shallow embedding of `src/wordpress-migration.py` (class `WordPressMigrator`).

The script talks to two WordPress REST APIs.  We model the network as
explicit response data handed to each function:

* a page request in `get_all_posts` yields either an exception
  (network error, non-success status via `raise_for_status`, malformed
  body) — modelled as `Except.error ()` — or a JSON page: a list of
  post records plus the optional `X-WP-TotalPages` header;
* the capability probes in `check_api_accessibility` yield an HTTP
  status plus the optional machine-readable `code` field of the body;
* the featured-image pipeline and the post-creation call in
  `migrate_all_posts` yield HTTP statuses and ids.

Python dict access is embedded faithfully: `post.get("title", {})
.get("rendered", "")` returns `""` when the field is absent or the
mapping lacks `"rendered"`, and raises `AttributeError` when the field
is present but is not a mapping (e.g. a plain string) — modelled by
`getRendered` returning `Except Unit String`.
-/

set_option autoImplicit false

namespace WPMigration

/-- A JSON field that the script reads with `.get("rendered", ...)`:
absent, a plain (non-mapping) value such as a string, or a mapping
whose `"rendered"` entry may itself be absent. -/
inductive JsonField where
  | absent
  | str (s : String)
  | obj (rendered : Option String)
  deriving DecidableEq, Repr

/-- Embedding of `post.get(field, {}).get("rendered", "")` (lines
220–222): default `""` on absence at either level; `AttributeError`
(an exception, `Except.error`) when the field is a non-mapping value. -/
def getRendered : JsonField → Except Unit String
  | .absent => .ok ""
  | .str _ => .error ()
  | .obj r => .ok (r.getD "")

/-- A source post record, as consumed by `migrate_all_posts`:
the fields requested via `_fields` at line 161. -/
structure SourcePost where
  title : JsonField
  content : JsonField
  excerpt : JsonField
  featured_media : Option Nat
  categories : Option (List Nat)
  tags : Option (List Nat)
  deriving DecidableEq, Repr

/-- A successfully parsed page response of the posts collection:
its JSON body (a list of posts) and the optional
`X-WP-TotalPages` header (line 190 defaults a missing header to 0). -/
structure Page where
  items : List SourcePost
  totalPages : Option Nat
  deriving DecidableEq, Repr

/-- The page returned for page numbers beyond the simulated source:
an empty body and no total-pages header. -/
def emptyPage : Page := { items := [], totalPages := none }

/-- The stop tests of the fetch loop, applied to the page fetched as
page number `n` (lines 179–192): break on an empty body; in the
legacy variant break when the page has fewer items than `perPage`;
in the modern variant break when `n ≥ int(X-WP-TotalPages, default 0)`. -/
def pageStops (legacy : Bool) (perPage : Nat) (n : Nat) (p : Page) : Bool :=
  p.items.isEmpty ||
    (if legacy then decide (p.items.length < perPage)
     else decide (p.totalPages.getD 0 ≤ n))

/-- The `while True` loop of `get_all_posts` (lines 148–201), fetching
pages `n, n+1, ...` from the simulated source `src` (one entry per
page; pages beyond the list are `emptyPage`, always a stop).  Each
list entry is the outcome of one HTTP request: `Except.error ()` for a
request-level failure (the `except` block at lines 197–201 re-raises,
discarding the posts collected so far), `Except.ok` for a parsed page.
Returns the collected posts (or the propagated error) together with
the number of page requests issued. -/
def fetchFrom (legacy : Bool) (perPage : Nat) :
    List (Except Unit Page) → Nat → Except Unit (List SourcePost) × Nat
  | [], _ => (.ok [], 1)
  | .error _ :: _, _ => (.error (), 1)
  | .ok p :: rest, n =>
    if p.items.isEmpty then (.ok [], 1)
    else if (if legacy then decide (p.items.length < perPage)
             else decide (p.totalPages.getD 0 ≤ n)) then (.ok p.items, 1)
    else
      match fetchFrom legacy perPage rest (n + 1) with
      | (.ok posts, r) => (.ok (p.items ++ posts), r + 1)
      | (.error e, r) => (.error e, r + 1)

/-- `WordPressMigrator.get_all_posts` (lines 138–204): page numbering
starts at 1. -/
def get_all_posts (legacy : Bool) (perPage : Nat)
    (src : List (Except Unit Page)) : Except Unit (List SourcePost) × Nat :=
  fetchFrom legacy perPage src 1

/-! ## Capability detection (`check_api_accessibility`, lines 76–136) -/

/-- The observable part of a probe response: HTTP status, and the
`code` field of the JSON body when the body parses to a mapping that
has one (`none` covers a missing field, a non-mapping body, or a parse
failure — all of which the inner `except` at line 115 swallows). -/
structure ProbeResp where
  status : Nat
  code : Option String
  deriving DecidableEq, Repr

/-- Line 108–113: `sys.exit(1)` fires exactly when the probe status is
500 and the body's `code` is `"incorrect_password"`.  (`SystemExit`
is not an `Exception`, so neither surrounding handler catches it.) -/
def isCredFailure (r : ProbeResp) : Bool :=
  r.status == 500 && r.code == some "incorrect_password"

/-- The responses `check_api_accessibility` observes: the `/wp-json`
discovery root status (line 83), the four collection probes in the
order of the `endpoints` list (lines 90–95), and the status of the
legacy `/wp-json/posts` attempt (line 121). -/
structure DetectEnv where
  baseStatus : Nat
  postsProbe : ProbeResp
  pagesProbe : ProbeResp
  categoriesProbe : ProbeResp
  tagsProbe : ProbeResp
  legacyStatus : Nat
  deriving DecidableEq, Repr

/-- The four probe responses in probing order. -/
def DetectEnv.probes (env : DetectEnv) : List ProbeResp :=
  [env.postsProbe, env.pagesProbe, env.categoriesProbe, env.tagsProbe]

/-- How `check_api_accessibility` can fail: the raised `Exception`
when the discovery root is not 200 (line 87), or `sys.exit(1)`
(line 113). -/
inductive DetectExit where
  | connError
  | exit1
  deriving DecidableEq, Repr

/-- What a completed detection reports: whether the legacy
`/wp-json/posts` request was issued, and the resulting
`use_legacy_api` flag. -/
structure DetectResult where
  legacyAttempted : Bool
  use_legacy_api : Bool
  deriving DecidableEq, Repr

/-- `check_api_accessibility` (lines 76–136).  Note the condition at
line 119, `all(response.status_code == 500 for endpoint in endpoints)`:
the generator never uses `endpoint`, and after the probe loop
`response` is the response of the last endpoint (tags), so the test
reduces to `tagsProbe.status == 500`. -/
def check_api_accessibility (env : DetectEnv) : Except DetectExit DetectResult :=
  if env.baseStatus ≠ 200 then .error .connError
  else if env.probes.any isCredFailure then .error .exit1
  else
    let attempt := env.tagsProbe.status == 500
    .ok { legacyAttempted := attempt
          use_legacy_api := attempt && env.legacyStatus == 200 }

/-! ## Post transformation and migration (`migrate_all_posts`, lines 206–284) -/

/-- The destination post payload `post_data` (lines 219–226), with
`featured_media` as the optional key added at line 255 (`none` means
the key is absent from the dict). -/
structure PostData where
  title : String
  content : String
  excerpt : String
  status : String
  categories : List Nat
  tags : List Nat
  featured_media : Option Nat
  deriving DecidableEq, Repr

/-- The construction of `post_data` at lines 219–226: a pure mapping
except for the `AttributeError` that dict access raises on a
non-mapping title/content/excerpt. -/
def buildPostData (p : SourcePost) : Except Unit PostData := do
  let t ← getRendered p.title
  let c ← getRendered p.content
  let e ← getRendered p.excerpt
  return { title := t
           content := c
           excerpt := e
           status := "publish"
           categories := p.categories.getD []
           tags := p.tags.getD []
           featured_media := none }

/-- The responses the featured-image pipeline observes for one post:
the media-metadata request status (line 236), the image download
status (line 243), the upload status (line 253) and the id the upload
response carries (line 254). -/
structure MediaEnv where
  metaStatus : Nat
  downloadStatus : Nat
  uploadStatus : Nat
  newId : Nat
  deriving DecidableEq, Repr

/-- One observable HTTP request of the per-post block, in the order
the block issues them. -/
inductive Event where
  | mediaMetaReq (mid : Nat)
  | mediaDownload
  | mediaUpload
  | postCreate (payload : PostData)
  deriving DecidableEq, Repr

/-- The featured-image pipeline (lines 231–263): fetch metadata; on
status 200 download; on status 200 upload; on status 201 yield the
new destination id.  Every non-success branch only logs, so the
result is always a trace of the requests issued plus `some id` or
`none` — no exception. -/
def migrateImage (mid : Nat) (env : MediaEnv) : List Event × Option Nat :=
  if env.metaStatus = 200 then
    if env.downloadStatus = 200 then
      if env.uploadStatus = 201 then
        ([.mediaMetaReq mid, .mediaDownload, .mediaUpload], some env.newId)
      else
        ([.mediaMetaReq mid, .mediaDownload, .mediaUpload], none)
    else ([.mediaMetaReq mid, .mediaDownload], none)
  else ([.mediaMetaReq mid], none)

/-- The responses one iteration of the post loop observes: the image
pipeline responses, and the status and body id of the post-creation
call (lines 266–275). -/
structure PostEnv where
  media : MediaEnv
  createStatus : Nat
  createdId : Nat
  deriving DecidableEq, Repr

/-- Outcome of one post: created with the destination id (status 201,
line 274), or logged as failed with the returned status (line 277). -/
inductive PostOutcome where
  | created (id : Nat)
  | failed (status : Nat)
  deriving DecidableEq, Repr

/-- One iteration of the `for post in posts` loop (lines 214–282):
build `post_data`; if `featured_media` is truthy (present and
non-zero) run the image pipeline and, on full success, attach the new
id; then submit the post.  The only exception the block can raise
(within the modelled response combinations) is the `AttributeError`
from a non-mapping title/content/excerpt, which the `except` at
lines 280–282 re-raises. -/
def processPost (p : SourcePost) (env : PostEnv) :
    Except Unit (List Event × PostOutcome) := do
  let pd ← buildPostData p
  let (evs, newMedia) :=
    match p.featured_media with
    | some mid => if mid ≠ 0 then migrateImage mid env.media else ([], none)
    | none => ([], none)
  let pd2 :=
    match newMedia with
    | some nid => { pd with featured_media := some nid }
    | none => pd
  let outcome :=
    if env.createStatus = 201 then PostOutcome.created env.createdId
    else PostOutcome.failed env.createStatus
  return (evs ++ [.postCreate pd2], outcome)

/-- The `for post in posts` loop of `migrate_all_posts`
(lines 214–282), each post paired with the responses its iteration
observes: processes the posts in order, collecting each iteration's
request trace and outcome; a raised exception aborts the whole run. -/
def migrate_all_posts :
    List (SourcePost × PostEnv) → Except Unit (List (List Event × PostOutcome))
  | [] => .ok []
  | (p, env) :: rest => do
    let r ← processPost p env
    let rs ← migrate_all_posts rest
    return r :: rs

/-! ## Top level (`__main__`, lines 287–318) -/

/-- All responses one run observes. -/
structure RunEnv where
  detect : DetectEnv
  pages : List (Except Unit Page)
  postEnvs : Nat → PostEnv

/-- Result of a run: the process exit code on a fatal path, or the
per-post traces and outcomes of a completed migration. -/
inductive RunResult where
  | exited (code : Nat)
  | migrated (out : List (List Event × PostOutcome))

/-- The `__main__` block: `check_api_accessibility`, then
`migrate_all_posts` (which first calls `get_all_posts()` with the
default page size 5, line 211).  `sys.exit(1)` and any exception
reaching the top-level `except` both end the process with exit
code 1. -/
def runMain (env : RunEnv) : RunResult :=
  match check_api_accessibility env.detect with
  | .error _ => .exited 1
  | .ok det =>
    match (get_all_posts det.use_legacy_api 5 env.pages).1 with
    | .error _ => .exited 1
    | .ok posts =>
      match migrate_all_posts
          (posts.enum.map (fun pr => (pr.2, env.postEnvs pr.1))) with
      | .error _ => .exited 1
      | .ok out => .migrated out

/-! ## Derived definitions used in the statements -/

/-- A demo source post with every field well-formed. -/
def samplePost : SourcePost :=
  { title := .obj (some "t")
    content := .obj (some "c")
    excerpt := .obj (some "e")
    featured_media := none
    categories := some []
    tags := some [] }

/-- The legacy end-to-end scenario: three full pages of 5 posts; the
fourth request hits the end of the source and yields an empty page. -/
def legacyScenario : List (Except Unit Page) :=
  List.replicate 3 (Except.ok { items := List.replicate 5 samplePost, totalPages := none })

/-- `continuesThrough pre n = true` says the loop, fetching the pages
of `pre` starting at page number `n`, hits no stop test within `pre`. -/
def continuesThrough (legacy : Bool) (perPage : Nat) : List Page → Nat → Bool
  | [], _ => true
  | p :: rest, n =>
    !(pageStops legacy perPage n p) && continuesThrough legacy perPage rest (n + 1)

/-- The string a well-formed field contributes to the payload. -/
def renderedOf : JsonField → String
  | .absent => ""
  | .str s => s
  | .obj r => r.getD ""

/-- A field is well-formed when dict access cannot raise on it:
absent, or a mapping. -/
def wellFormedField : JsonField → Bool
  | .str _ => false
  | _ => true

/-- A source post is well-formed when title, content and excerpt are
all well-formed. -/
def wellFormed (p : SourcePost) : Bool :=
  wellFormedField p.title && wellFormedField p.content && wellFormedField p.excerpt

/-- The payload `post_data` as first built (lines 219–226), before the
image pipeline may add `featured_media`. -/
def basePayload (p : SourcePost) : PostData :=
  { title := renderedOf p.title
    content := renderedOf p.content
    excerpt := renderedOf p.excerpt
    status := "publish"
    categories := p.categories.getD []
    tags := p.tags.getD []
    featured_media := none }

/-- Line 255: the `featured_media` key is added exactly when the image
pipeline returned a destination id. -/
def attachMedia (pd : PostData) : Option Nat → PostData
  | some nid => { pd with featured_media := some nid }
  | none => pd

/-- Lines 273–278: status 201 means created with the body's id, any
other status is logged as a failure. -/
def createOutcome (env : PostEnv) : PostOutcome :=
  if env.createStatus = 201 then .created env.createdId else .failed env.createStatus

/-- Whether an outcome is a successful creation. -/
def isCreated : PostOutcome → Bool
  | .created _ => true
  | .failed _ => false

/-- A detection environment in which the first three probes succeed
and only the tags probe returns a 500 server error (no credentials
code anywhere). -/
def mixedProbeEnv : DetectEnv :=
  { baseStatus := 200
    postsProbe := { status := 200, code := none }
    pagesProbe := { status := 200, code := none }
    categoriesProbe := { status := 200, code := none }
    tagsProbe := { status := 500, code := none }
    legacyStatus := 200 }

/-- A per-post environment used when the post pipeline is never
reached. -/
def defaultPostEnv : PostEnv :=
  { media := { metaStatus := 0, downloadStatus := 0, uploadStatus := 0, newId := 0 }
    createStatus := 0
    createdId := 0 }

/-- A detection environment whose posts probe reports the
incorrect-credentials code with HTTP status 403 rather than 500. -/
def nonServerCredEnv : DetectEnv :=
  { baseStatus := 200
    postsProbe := { status := 403, code := some "incorrect_password" }
    pagesProbe := { status := 200, code := none }
    categoriesProbe := { status := 200, code := none }
    tagsProbe := { status := 200, code := none }
    legacyStatus := 404 }

/-- A detection environment whose pages probe reports the
incorrect-credentials signal (status 500 and the code). -/
def credFailEnv : DetectEnv :=
  { baseStatus := 200
    postsProbe := { status := 200, code := none }
    pagesProbe := { status := 500, code := some "incorrect_password" }
    categoriesProbe := { status := 200, code := none }
    tagsProbe := { status := 200, code := none }
    legacyStatus := 200 }

/-! ## Theorems about the fetch loop -/

/-- Characterisation of the fetch loop on a source whose every request
succeeds: starting at page `n` it returns the concatenation of the
first `k + 1` pages after `k + 1` requests, where page `n + k` is the
first page satisfying a stop test. -/
theorem fetchFrom_ok_spec (legacy : Bool) (perPage : Nat) (pages : List Page) :
    ∀ n, ∃ posts k,
      fetchFrom legacy perPage (pages.map Except.ok) n = (.ok posts, k + 1) ∧
      posts = ((pages.take (k + 1)).map Page.items).flatten ∧
      pageStops legacy perPage (n + k) (pages.getD k emptyPage) = true ∧
      ∀ i, i < k → pageStops legacy perPage (n + i) (pages.getD i emptyPage) = false := by
  induction pages with
  | nil =>
    intro n
    exact ⟨[], 0, rfl, rfl, rfl, fun i h => absurd h (Nat.not_lt_zero i)⟩
  | cons p rest ih =>
    intro n
    by_cases he : p.items.isEmpty = true
    · refine ⟨[], 0, ?_, ?_, ?_, fun i h => absurd h (Nat.not_lt_zero i)⟩
      · simp [fetchFrom, he]
      · have hnil : p.items = [] := by simpa using he
        simp [hnil]
      · simp [pageStops, he]
    · by_cases hs : (if legacy then decide (p.items.length < perPage)
          else decide (p.totalPages.getD 0 ≤ n)) = true
      · refine ⟨p.items, 0, ?_, ?_, ?_, fun i h => absurd h (Nat.not_lt_zero i)⟩
        · simp [fetchFrom, he, hs]
        · simp
        · simp [pageStops, he, hs]
      · obtain ⟨posts, k, heq, hjoin, hstop, hcont⟩ := ih (n + 1)
        refine ⟨p.items ++ posts, k + 1, ?_, ?_, ?_, ?_⟩
        · simp [fetchFrom, he, hs, heq]
        · simp [List.take_succ_cons, hjoin]
        · have harith : n + (k + 1) = (n + 1) + k := by omega
          rw [harith, List.getD_cons_succ]
          exact hstop
        · intro i hik
          match i with
          | 0 =>
            rw [Nat.add_zero, List.getD_cons_zero]
            simp only [pageStops]
            rw [Bool.or_eq_false_iff]
            exact ⟨Bool.eq_false_iff.mpr he, Bool.eq_false_iff.mpr hs⟩
          | j + 1 =>
            have harith : n + (j + 1) = (n + 1) + j := by omega
            rw [harith, List.getD_cons_succ]
            exact hcont j (by omega)

/-- C1: on any simulated all-successful source, any variant and any
page size, `get_all_posts` returns the in-order concatenation of the
pages it requested — so its length is the sum of the item counts of
those pages — and it stops exactly at the first page that is empty,
or (legacy) has fewer items than the requested page size, or (modern)
whose number is at least the reported total-page-count (a missing
header counting as 0).  Moreover, in the end-to-end legacy scenario
(3 pages of 5 posts, page size 5) it returns exactly 15 posts using
exactly 4 page requests. -/
theorem get_all_posts_pagination_spec (legacy : Bool) (perPage : Nat) (pages : List Page) :
    (∃ posts k,
      get_all_posts legacy perPage (pages.map Except.ok) = (.ok posts, k + 1) ∧
      posts = ((pages.take (k + 1)).map Page.items).flatten ∧
      posts.length = ((pages.take (k + 1)).map (fun q => q.items.length)).sum ∧
      pageStops legacy perPage (1 + k) (pages.getD k emptyPage) = true ∧
      ∀ i, i < k → pageStops legacy perPage (1 + i) (pages.getD i emptyPage) = false) ∧
    (get_all_posts true 5 legacyScenario).1 = .ok (List.replicate 15 samplePost) ∧
    (get_all_posts true 5 legacyScenario).2 = 4 := by
  refine ⟨?_, rfl, rfl⟩
  obtain ⟨posts, k, h1, h2, h3, h4⟩ := fetchFrom_ok_spec legacy perPage pages 1
  refine ⟨posts, k, h1, h2, ?_, h3, h4⟩
  rw [h2, List.length_flatten, List.map_map]
  rfl

/-- C9: in the modern variant, a successful non-empty first page with
no `X-WP-TotalPages` header makes `get_all_posts` stop after that one
page (`int(headers.get(..., 0))` is 0 and `1 ≥ 0`), returning only its
posts even when further pages exist. -/
theorem missing_total_pages_header_stops_after_first_page
    (perPage : Nat) (p : Page) (rest : List (Except Unit Page))
    (hne : p.items ≠ []) (hdr : p.totalPages = none) :
    get_all_posts false perPage (Except.ok p :: rest) = (.ok p.items, 1) := by
  unfold get_all_posts fetchFrom
  rw [if_neg (by simpa using hne), if_pos (by simp [hdr])]

/-- Witness for C9: a two-page modern source whose first page lacks
the header; only the first page's single post is returned. -/
theorem missing_total_pages_header_stops_after_first_page_witness :
    get_all_posts false 5
      (Except.ok { items := [samplePost], totalPages := none } ::
        [Except.ok { items := [samplePost], totalPages := some 2 }]) =
      (.ok [samplePost], 1) :=
  missing_total_pages_header_stops_after_first_page 5
    { items := [samplePost], totalPages := none } _ (by decide) rfl

/-- The fetch loop propagates the first request failure it reaches,
discarding everything collected so far. -/
theorem fetchFrom_error (legacy : Bool) (perPage : Nat) :
    ∀ (pre : List Page) (rest : List (Except Unit Page)) (n : Nat),
      continuesThrough legacy perPage pre n = true →
      fetchFrom legacy perPage (pre.map Except.ok ++ Except.error () :: rest) n =
        (.error (), pre.length + 1)
  | [], _, _, _ => rfl
  | p :: pre, rest, n, h => by
    rw [continuesThrough, Bool.and_eq_true] at h
    obtain ⟨hstop, hrest⟩ := h
    rw [Bool.not_eq_true'] at hstop
    simp only [pageStops, Bool.or_eq_false_iff] at hstop
    obtain ⟨he, hs⟩ := hstop
    have ihr := fetchFrom_error legacy perPage pre rest (n + 1) hrest
    simp [fetchFrom, he, hs, ihr, List.length_cons]

/-- C6: if the loop reaches a page whose request fails (network error,
non-success status, malformed body), the whole fetch returns the
propagated error and no posts — the `pre.length` pages already
collected are discarded — after `pre.length + 1` requests. -/
theorem page_failure_aborts_fetch (legacy : Bool) (perPage : Nat)
    (pre : List Page) (rest : List (Except Unit Page))
    (h : continuesThrough legacy perPage pre 1 = true) :
    get_all_posts legacy perPage (pre.map Except.ok ++ Except.error () :: rest) =
      (.error (), pre.length + 1) :=
  fetchFrom_error legacy perPage pre rest 1 h

/-- Witness for C6: one successful full page followed by a failing
request; the fetch errors out after 2 requests. -/
theorem page_failure_aborts_fetch_witness :
    continuesThrough false 5 [{ items := [samplePost], totalPages := some 3 }] 1 = true ∧
    get_all_posts false 5
      (([{ items := [samplePost], totalPages := some 3 }] : List Page).map Except.ok ++
        Except.error () :: []) = (.error (), 2) :=
  ⟨by decide,
    page_failure_aborts_fetch false 5 [{ items := [samplePost], totalPages := some 3 }] []
      (by decide)⟩

/-! ## Theorems about transformation and migration -/

/-- On a well-formed post, building the payload succeeds and is
exactly the base payload. -/
theorem buildPostData_ok (p : SourcePost) (hwf : wellFormed p = true) :
    buildPostData p = .ok (basePayload p) := by
  obtain ⟨t, c, e, fm, cat, tg⟩ := p
  simp only [wellFormed, Bool.and_eq_true] at hwf
  obtain ⟨⟨ht, hc⟩, he⟩ := hwf
  cases t <;> cases c <;> cases e <;>
    first
      | rfl
      | simp_all [wellFormedField, buildPostData, getRendered, basePayload, renderedOf]

/-- On a post with a non-mapping title, content or excerpt, building
the payload raises. -/
theorem buildPostData_error (p : SourcePost) (hwf : wellFormed p = false) :
    buildPostData p = .error () := by
  obtain ⟨t, c, e, fm, cat, tg⟩ := p
  cases t <;> cases c <;> cases e <;>
    first
      | rfl
      | simp_all [wellFormed, wellFormedField, buildPostData, getRendered]

/-- The image pipeline yields the upload response's id exactly when
all three stages succeed, and an absence signal otherwise. -/
theorem migrateImage_snd (mid : Nat) (m : MediaEnv) :
    (migrateImage mid m).2 = some m.newId ∨ (migrateImage mid m).2 = none := by
  unfold migrateImage
  split_ifs <;> simp

/-- The image pipeline always issues its metadata request first and
never issues a post-creation request. -/
theorem migrateImage_fst (mid : Nat) (m : MediaEnv) :
    (migrateImage mid m).1.head? = some (.mediaMetaReq mid) ∧
      ∀ q, Event.postCreate q ∉ (migrateImage mid m).1 := by
  unfold migrateImage
  split_ifs <;> simp

/-- Shape of one loop iteration on a well-formed post carrying a
truthy featured-image id: the image pipeline runs first, then the
single post-creation request is issued with the (possibly augmented)
payload. -/
theorem processPost_eq_of_wf (p : SourcePost) (env : PostEnv) (mid : Nat)
    (hwf : wellFormed p = true) (hfm : p.featured_media = some mid) (hmid : mid ≠ 0) :
    processPost p env =
      .ok ((migrateImage mid env.media).1 ++
        [.postCreate (attachMedia (basePayload p) (migrateImage mid env.media).2)],
        createOutcome env) := by
  unfold processPost
  rw [buildPostData_ok p hwf, hfm]
  cases hmi : migrateImage mid env.media with
  | mk evs nm =>
    cases nm <;>
      simp [hmid, hmi, attachMedia, createOutcome, Except.bind]

/-- One loop iteration on any well-formed post succeeds, ends with the
post-creation request, and yields the outcome determined by the
creation status. -/
theorem processPost_ok_of_wf (p : SourcePost) (env : PostEnv)
    (hwf : wellFormed p = true) :
    ∃ evs pd, processPost p env = .ok (evs ++ [.postCreate pd], createOutcome env) := by
  unfold processPost
  rw [buildPostData_ok p hwf]
  cases hf : p.featured_media with
  | none => exact ⟨[], basePayload p, by simp [attachMedia, createOutcome, Except.bind]⟩
  | some mid =>
    by_cases hz : mid = 0
    · exact ⟨[], basePayload p, by simp [hz, attachMedia, createOutcome, Except.bind]⟩
    · cases hmi : migrateImage mid env.media with
      | mk evs nm =>
        refine ⟨evs, attachMedia (basePayload p) nm, ?_⟩
        cases nm <;> simp [hz, hmi, attachMedia, createOutcome, Except.bind]

/-- Splitting a list by a Bool predicate preserves length. -/
theorem length_filter_add_not {α : Type} (p : α → Bool) (l : List α) :
    (l.filter p).length + (l.filter (fun a => !(p a))).length = l.length := by
  induction l with
  | nil => rfl
  | cons a l ih => by_cases h : p a <;> simp [List.filter_cons, h] <;> omega

/-- On a list of well-formed posts the migration loop completes,
processing every post in order; the number of created posts is the
number of creation calls that returned status 201. -/
theorem migrate_all_posts_ok (l : List (SourcePost × PostEnv))
    (hwf : ∀ pe ∈ l, wellFormed pe.1 = true) :
    ∃ res, migrate_all_posts l = .ok res ∧
      l.map (fun pe => processPost pe.1 pe.2) = res.map Except.ok ∧
      (res.filter (fun r => isCreated r.2)).length =
        (l.filter (fun pe => pe.2.createStatus == 201)).length := by
  induction l with
  | nil => exact ⟨[], rfl, rfl, rfl⟩
  | cons pe l ih =>
    obtain ⟨res, hres, hmap, hcount⟩ := ih (fun q hq => hwf q (List.mem_cons_of_mem pe hq))
    obtain ⟨evs, pd, hproc⟩ := processPost_ok_of_wf pe.1 pe.2 (hwf pe (List.mem_cons_self pe l))
    obtain ⟨p, env⟩ := pe
    refine ⟨(evs ++ [.postCreate pd], createOutcome env) :: res, ?_, ?_, ?_⟩
    · rw [migrate_all_posts, hproc, hres]
      rfl
    · simpa [hproc] using hmap
    · rw [List.filter_cons, List.filter_cons]
      have hhead : isCreated (createOutcome env) = (env.createStatus == 201) := by
        by_cases h : env.createStatus = 201 <;> simp [createOutcome, isCreated, h]
      cases hb : env.createStatus == 201 <;> simp [hhead, hb, hcount]

/-- C7: building the destination payload from any well-formed source
post is a pure total mapping: status is always the published status
(the API literal `"publish"`), the rendered title, content and
excerpt and the category and tag id lists are copied verbatim,
missing optional fields default to `""` / `[]`, and the payload has no
featured-image field. -/
theorem transformer_spec (p : SourcePost) (hwf : wellFormed p = true) :
    buildPostData p = .ok
      { title := renderedOf p.title
        content := renderedOf p.content
        excerpt := renderedOf p.excerpt
        status := "publish"
        categories := p.categories.getD []
        tags := p.tags.getD []
        featured_media := none } :=
  buildPostData_ok p hwf

/-- Witness for C7 at a concrete post with a missing excerpt, a
mapping without `"rendered"`, and missing tags. -/
theorem transformer_spec_witness :
    wellFormed { title := JsonField.obj (some "Hello")
                 content := JsonField.obj none
                 excerpt := JsonField.absent
                 featured_media := some 7
                 categories := some [2, 3]
                 tags := none } = true ∧
    buildPostData { title := JsonField.obj (some "Hello")
                    content := JsonField.obj none
                    excerpt := JsonField.absent
                    featured_media := some 7
                    categories := some [2, 3]
                    tags := none } = .ok
      { title := "Hello"
        content := ""
        excerpt := ""
        status := "publish"
        categories := [2, 3]
        tags := []
        featured_media := none } :=
  ⟨by decide, transformer_spec _ (by decide)⟩

/-- C2: for every combination of image-pipeline outcomes (statuses of
the metadata fetch, download and upload), processing a well-formed
post carrying a truthy featured-image id never raises from the image
pipeline: the iteration succeeds, the post-creation request is always
issued, and its payload either carries the destination-side id or has
no featured-image field at all. -/
theorem mediaPipeline_total (p : SourcePost) (env : PostEnv) (mid : Nat)
    (hwf : wellFormed p = true) (hfm : p.featured_media = some mid) (hmid : mid ≠ 0) :
    ∃ evs outcome pd,
      processPost p env = .ok (evs ++ [Event.postCreate pd], outcome) ∧
      (pd.featured_media = some env.media.newId ∨ pd.featured_media = none) := by
  refine ⟨(migrateImage mid env.media).1, createOutcome env,
    attachMedia (basePayload p) (migrateImage mid env.media).2,
    processPost_eq_of_wf p env mid hwf hfm hmid, ?_⟩
  rcases migrateImage_snd mid env.media with h | h <;> rw [h]
  · exact Or.inl rfl
  · exact Or.inr rfl

/-- Witness for C2 at a post with featured id 7 whose image upload
fails with status 500. -/
theorem mediaPipeline_total_witness :
    ∃ evs outcome pd,
      processPost
        { title := JsonField.obj (some "a")
          content := JsonField.absent
          excerpt := JsonField.obj none
          featured_media := some 7
          categories := none
          tags := some [1] }
        { media := { metaStatus := 200, downloadStatus := 200, uploadStatus := 500, newId := 9 }
          createStatus := 201
          createdId := 11 } = .ok (evs ++ [Event.postCreate pd], outcome) ∧
      (pd.featured_media = some 9 ∨ pd.featured_media = none) :=
  mediaPipeline_total _ _ 7 (by decide) rfl (by decide)

/-- C8: for a well-formed post carrying a truthy featured-image id,
the iteration's request trace is exactly the image-pipeline trace
followed by the single post-creation request: the media step starts
with the metadata request (never skipped), issues no creation
request itself (no interleaving), and the creation request comes
last. -/
theorem media_before_post_creation (p : SourcePost) (env : PostEnv) (mid : Nat)
    (hwf : wellFormed p = true) (hfm : p.featured_media = some mid) (hmid : mid ≠ 0) :
    ∃ pd outcome,
      processPost p env =
        .ok ((migrateImage mid env.media).1 ++ [Event.postCreate pd], outcome) ∧
      (migrateImage mid env.media).1.head? = some (Event.mediaMetaReq mid) ∧
      ∀ q, Event.postCreate q ∉ (migrateImage mid env.media).1 :=
  ⟨attachMedia (basePayload p) (migrateImage mid env.media).2, createOutcome env,
    processPost_eq_of_wf p env mid hwf hfm hmid,
    (migrateImage_fst mid env.media).1, (migrateImage_fst mid env.media).2⟩

/-- Witness for C8 at a post with featured id 3 whose metadata fetch
fails with status 404. -/
theorem media_before_post_creation_witness :
    ∃ pd outcome,
      processPost
        { title := JsonField.absent
          content := JsonField.obj (some "body")
          excerpt := JsonField.absent
          featured_media := some 3
          categories := some [4]
          tags := none }
        { media := { metaStatus := 404, downloadStatus := 0, uploadStatus := 0, newId := 0 }
          createStatus := 500
          createdId := 0 } =
        .ok ((migrateImage 3 { metaStatus := 404, downloadStatus := 0, uploadStatus := 0, newId := 0 }).1
          ++ [Event.postCreate pd], outcome) ∧
      (migrateImage 3 { metaStatus := 404, downloadStatus := 0, uploadStatus := 0, newId := 0 }).1.head? =
        some (Event.mediaMetaReq 3) ∧
      ∀ q, Event.postCreate q ∉
        (migrateImage 3 { metaStatus := 404, downloadStatus := 0, uploadStatus := 0, newId := 0 }).1 :=
  media_before_post_creation _ _ 3 (by decide) rfl (by decide)

/-- C4: on a fetched sequence of well-formed posts in which exactly
one creation call returns a non-201 status, the loop still completes
(no abort), every post is attempted in order (the per-post results
line up with the input list), and all but the failing post are
created; nothing is retried. -/
theorem migration_continues_past_creation_failure (l : List (SourcePost × PostEnv))
    (hwf : ∀ pe ∈ l, wellFormed pe.1 = true)
    (hone : (l.filter (fun pe => !(pe.2.createStatus == 201))).length = 1) :
    ∃ res, migrate_all_posts l = .ok res ∧
      res.length = l.length ∧
      l.map (fun pe => processPost pe.1 pe.2) = res.map Except.ok ∧
      (res.filter (fun r => isCreated r.2)).length = l.length - 1 := by
  obtain ⟨res, hres, hmap, hcount⟩ := migrate_all_posts_ok l hwf
  have hlen : res.length = l.length := by
    have hl := congrArg List.length hmap
    simpa using hl.symm
  refine ⟨res, hres, hlen, hmap, ?_⟩
  have hsplit : (l.filter (fun pe => pe.2.createStatus == 201)).length +
      (l.filter (fun pe => !(pe.2.createStatus == 201))).length = l.length :=
    length_filter_add_not _ l
  omega

/-- Witness for C4: three well-formed posts, the middle creation call
returns 500; the run completes with 2 of 3 posts created. -/
theorem migration_continues_past_creation_failure_witness :
    ∃ res,
      migrate_all_posts
        [({ title := JsonField.obj (some "a"), content := JsonField.absent,
            excerpt := JsonField.absent, featured_media := none,
            categories := none, tags := none },
          { media := { metaStatus := 0, downloadStatus := 0, uploadStatus := 0, newId := 0 },
            createStatus := 201, createdId := 10 }),
         ({ title := JsonField.obj (some "b"), content := JsonField.absent,
            excerpt := JsonField.absent, featured_media := none,
            categories := none, tags := none },
          { media := { metaStatus := 0, downloadStatus := 0, uploadStatus := 0, newId := 0 },
            createStatus := 500, createdId := 0 }),
         ({ title := JsonField.obj (some "c"), content := JsonField.absent,
            excerpt := JsonField.absent, featured_media := none,
            categories := none, tags := none },
          { media := { metaStatus := 0, downloadStatus := 0, uploadStatus := 0, newId := 0 },
            createStatus := 201, createdId := 11 })] = .ok res ∧
      res.length = 3 ∧
      [({ title := JsonField.obj (some "a"), content := JsonField.absent,
          excerpt := JsonField.absent, featured_media := none,
          categories := none, tags := none },
        { media := { metaStatus := 0, downloadStatus := 0, uploadStatus := 0, newId := 0 },
          createStatus := 201, createdId := 10 }),
       ({ title := JsonField.obj (some "b"), content := JsonField.absent,
          excerpt := JsonField.absent, featured_media := none,
          categories := none, tags := none },
        { media := { metaStatus := 0, downloadStatus := 0, uploadStatus := 0, newId := 0 },
          createStatus := 500, createdId := 0 }),
       ({ title := JsonField.obj (some "c"), content := JsonField.absent,
          excerpt := JsonField.absent, featured_media := none,
          categories := none, tags := none },
        { media := { metaStatus := 0, downloadStatus := 0, uploadStatus := 0, newId := 0 },
          createStatus := 201, createdId := 11 })].map (fun pe => processPost pe.1 pe.2) =
        res.map Except.ok ∧
      (res.filter (fun r => isCreated r.2)).length = 2 :=
  migration_continues_past_creation_failure _ (by decide) (by decide)

/-- Bind on a successful `Except Unit` value. -/
theorem except_bind_ok {α β : Type} (a : α) (f : α → Except Unit β) :
    (Except.ok a >>= f) = f a := rfl

/-- Bind on a failed `Except Unit` value propagates the error. -/
theorem except_bind_err {α β : Type} (f : α → Except Unit β) :
    ((Except.error () : Except Unit α) >>= f) = Except.error () := rfl

/-- C10: if any fetched post has a title, content or excerpt that is
present but not a mapping (e.g. the plain string of the legacy API
shape), the `AttributeError` from dict access propagates out of the
per-post block: the migration loop aborts for the whole remaining
run, however many posts preceded or follow the bad one. -/
theorem non_mapping_field_aborts_run (pre : List (SourcePost × PostEnv))
    (bad : SourcePost × PostEnv) (rest : List (SourcePost × PostEnv))
    (hpre : ∀ pe ∈ pre, wellFormed pe.1 = true)
    (hbad : wellFormed bad.1 = false) :
    migrate_all_posts (pre ++ bad :: rest) = .error () := by
  induction pre with
  | nil =>
    obtain ⟨p, env⟩ := bad
    have hb : buildPostData p = .error () := buildPostData_error p hbad
    have hp : processPost p env = .error () := by
      unfold processPost
      rw [hb, except_bind_err]
    rw [List.nil_append, migrate_all_posts, hp, except_bind_err]
  | cons pe pre ih =>
    obtain ⟨p, env⟩ := pe
    have hw : wellFormed p = true := hpre (p, env) (List.mem_cons_self _ _)
    obtain ⟨evs, pd, hproc⟩ := processPost_ok_of_wf p env hw
    have ihh := ih (fun q hq => hpre q (List.mem_cons_of_mem _ hq))
    rw [List.cons_append, migrate_all_posts, hproc, except_bind_ok, ihh, except_bind_err]

/-- Witness for C10: a well-formed post followed by one whose content
is a plain string; the whole run errors out. -/
theorem non_mapping_field_aborts_run_witness :
    migrate_all_posts
      [({ title := JsonField.obj (some "ok"), content := JsonField.absent,
          excerpt := JsonField.absent, featured_media := none,
          categories := none, tags := none },
        { media := { metaStatus := 0, downloadStatus := 0, uploadStatus := 0, newId := 0 },
          createStatus := 201, createdId := 1 }),
       ({ title := JsonField.obj (some "bad"), content := JsonField.str "<p>legacy</p>",
          excerpt := JsonField.absent, featured_media := none,
          categories := none, tags := none },
        { media := { metaStatus := 0, downloadStatus := 0, uploadStatus := 0, newId := 0 },
          createStatus := 201, createdId := 2 })] = .error () :=
  non_mapping_field_aborts_run
    [({ title := JsonField.obj (some "ok"), content := JsonField.absent,
        excerpt := JsonField.absent, featured_media := none,
        categories := none, tags := none },
      { media := { metaStatus := 0, downloadStatus := 0, uploadStatus := 0, newId := 0 },
        createStatus := 201, createdId := 1 })]
    ({ title := JsonField.obj (some "bad"), content := JsonField.str "<p>legacy</p>",
       excerpt := JsonField.absent, featured_media := none,
       categories := none, tags := none },
      { media := { metaStatus := 0, downloadStatus := 0, uploadStatus := 0, newId := 0 },
        createStatus := 201, createdId := 2 })
    [] (by decide) (by decide)

/-! ## Theorems about capability detection and the top level -/

/-- C3, against the code as written: with the first three probes
succeeding (status 200) and only the last (tags) returning 500, the
legacy endpoint is attempted and adopted anyway — the `all(...)`
generator at line 119 never uses its loop variable, so it only tests
the last probe's response four times.  The intended condition
(attempt legacy only when every probe failed) does not hold. -/
theorem legacy_attempt_despite_probe_success :
    mixedProbeEnv.postsProbe.status = 200 ∧
    mixedProbeEnv.pagesProbe.status = 200 ∧
    mixedProbeEnv.categoriesProbe.status = 200 ∧
    check_api_accessibility mixedProbeEnv =
      .ok { legacyAttempted := true, use_legacy_api := true } := by
  refine ⟨rfl, rfl, rfl, ?_⟩
  rfl

/-- Counterexample to C5 as stated: a probed endpoint returns a
response carrying the machine-readable incorrect-credentials code,
but with HTTP status 403, and the process does not terminate — the
`sys.exit(1)` at line 113 is guarded by `status_code == 500`, so
detection completes normally and the run proceeds into the content
fetch and migration. -/
theorem cred_code_without_server_error_no_exit :
    nonServerCredEnv.postsProbe.code = some "incorrect_password" ∧
    check_api_accessibility nonServerCredEnv =
      .ok { legacyAttempted := false, use_legacy_api := false } ∧
    runMain { detect := nonServerCredEnv, pages := [], postEnvs := fun _ => defaultPostEnv } =
      .migrated [] := by
  refine ⟨rfl, ?_, ?_⟩ <;> rfl

/-- C5 (amended to the 500-status guard the code and §4.1 of the spec
both state): if the discovery root answered 200 and any of the four
probes returns HTTP status 500 with body code `"incorrect_password"`,
capability detection ends in `sys.exit(1)`, and the whole run exits
with code 1 whatever the content source holds — no page is fetched,
nothing is retried. -/
theorem cred_failure_short_circuit (env : DetectEnv)
    (hbase : env.baseStatus = 200)
    (hsig : ∃ r ∈ env.probes, r.status = 500 ∧ r.code = some "incorrect_password") :
    check_api_accessibility env = .error .exit1 ∧
    ∀ (pages : List (Except Unit Page)) (postEnvs : Nat → PostEnv),
      runMain { detect := env, pages := pages, postEnvs := postEnvs } = .exited 1 := by
  have hany : env.probes.any isCredFailure = true := by
    obtain ⟨r, hr, h5, hc⟩ := hsig
    exact List.any_eq_true.mpr ⟨r, hr, by simp [isCredFailure, h5, hc]⟩
  have hchk : check_api_accessibility env = .error .exit1 := by
    unfold check_api_accessibility
    rw [if_neg (by simp [hbase]), if_pos hany]
  refine ⟨hchk, fun pages postEnvs => ?_⟩
  unfold runMain
  rw [hchk]

/-- Witness for C5: with the pages probe reporting the signal,
detection exits and a run over a concrete source exits with code 1. -/
theorem cred_failure_short_circuit_witness :
    check_api_accessibility credFailEnv = .error .exit1 ∧
    runMain { detect := credFailEnv, pages := [], postEnvs := fun _ => defaultPostEnv } =
      .exited 1 :=
  ⟨(cred_failure_short_circuit credFailEnv rfl (by decide)).1,
    (cred_failure_short_circuit credFailEnv rfl (by decide)).2 [] (fun _ => defaultPostEnv)⟩

end WPMigration
